import Mathlib

set_option maxRecDepth 100000

/-!
Shallow embedding of the Master Kilominx solver sources:
src/solver/kilominx_model.py, src/solver/state_validator.py and
src/solver/move_notation.py.  Sticker colors are modelled as integers,
matching the integer color values used by the solved-state constructor
(face.value per sticker); a puzzle state is the ordered association list
mirroring the Python dict from face index to sticker list.
-/

/-- The apostrophe character (code point 39), the counter-clockwise move
modifier of the notation. -/
def apoChar : Char := Char.ofNat 39

/-- One-character string holding the apostrophe modifier. -/
def apoStr : String := String.singleton apoChar

/-- A puzzle state: ordered mapping from face index to its sticker colors,
mirroring the Python dict MasterKilominx.state. -/
abbrev KState := List (ℤ × List ℤ)

/-- Reads state[face].  Python raises KeyError for a missing face, a path
no claim exercises, so a missing key defaults to the empty list here. -/
def stateGet (s : KState) (f : ℤ) : List ℤ := (List.lookup f s).getD []

/-- Python dict assignment state[face] = l: rebinds an existing key in
place, appends a new key at the end. -/
def stateSet : KState → ℤ → List ℤ → KState
  | [], f, l => [(f, l)]
  | (g, m) :: rest, f, l =>
    if g = f then (f, l) :: rest else (g, m) :: stateSet rest f l

/-- np.rot90 with k = 3 (a clockwise quarter turn) of the 4x4 grid stored
row major in a flat list, as MasterKilominx._rotate_face builds it:
output position 4*i+j holds input position 4*(3-j)+i. -/
def rotCW (l : List ℤ) : List ℤ :=
  List.ofFn fun i : Fin 16 => l.getD (4 * (3 - i.val % 4) + i.val / 4) 0

/-- np.rot90 with k = 1 (counter-clockwise): output 4*i+j holds input
4*j+(3-i). -/
def rotCCW (l : List ℤ) : List ℤ :=
  List.ofFn fun i : Fin 16 => l.getD (4 * (i.val % 4) + (3 - i.val / 4)) 0

/-- np.rot90 with k = 2 (half turn): output i holds input 15-i. -/
def rot180 (l : List ℤ) : List ℤ :=
  List.ofFn fun i : Fin 16 => l.getD (15 - i.val) 0

/-- MasterKilominx._rotate_grid: direction 1 is clockwise (np.rot90 k=3),
-1 counter-clockwise (k=1), 2 a half turn (k=2); any other direction
falls into the else branch, which copies the array unrotated. -/
def rotGrid (d : ℤ) (l : List ℤ) : List ℤ :=
  if d = 1 then rotCW l
  else if d = -1 then rotCCW l
  else if d = 2 then rot180 l
  else l

/-- MasterKilominx._rotate_face: rebuilds the rotated face list and
rebinds it in the state.  The adjacent-face sticker transfer is absent
from the source (the step exists only as comments), so a move changes the
turned face alone. -/
def rotateFace (s : KState) (f d : ℤ) : KState :=
  stateSet s f (rotGrid d (stateGet s f))

/-- Face-name lookup Face[name] over the 12 enum members declared in
kilominx_model.Face, returning the enum value. -/
def faceOfName (s : String) : Option ℤ :=
  match s with
  | "F" => some 0
  | "U" => some 1
  | "R" => some 2
  | "D" => some 3
  | "L" => some 4
  | "BR" => some 5
  | "BL" => some 6
  | "BU" => some 7
  | "BD" => some 8
  | "B" => some 9
  | "UL" => some 10
  | "UR" => some 11
  | _ => none

/-- Face-name and direction extraction of MasterKilominx._parse_move: a
length-1 token is the whole token clockwise; a length-2 token inspects
its second character as a modifier, any other second character keeping
the whole token as the face name; any longer token keeps only its first
character with direction 1.  Python indexes move[0] in the final branch,
so the empty token (which raises IndexError there) is mapped to a junk
value and excluded by hypothesis where a theorem quantifies over
tokens. -/
def splitMove (move : String) : String × ℤ :=
  match move.data with
  | [] => ("", 1)
  | [c] => (String.mk [c], 1)
  | [c₁, c₂] =>
    if c₂ = apoChar then (String.mk [c₁], -1)
    else if c₂ = '2' then (String.mk [c₁], 2)
    else (String.mk [c₁, c₂], 1)
  | c :: _ :: _ :: _ => (String.mk [c], 1)

/-- MasterKilominx._parse_move: converts the face name with Face[name];
an unknown name raises KeyError, which the except branch replaces by the
default face F (value 0). -/
def parseMove (move : String) : ℤ × ℤ :=
  ((faceOfName (splitMove move).1).getD 0, (splitMove move).2)

/-- MasterKilominx.apply_move: parses the token, copies the state, and
rotates the parsed face on the copy.  The copy is the identity in this
functional embedding; the heap model below covers the mutation
discipline. -/
def applyMove (s : KState) (move : String) : KState :=
  rotateFace s (parseMove move).1 (parseMove move).2

/-- Sequential application of a list of move tokens. -/
def applyMoves (s : KState) (ms : List String) : KState := ms.foldl applyMove s

/-- MasterKilominx.__init__ with no state argument: each of the 12 faces
receives 16 stickers of its own face value. -/
def solvedState : KState :=
  (List.range 12).map fun i => ((i : ℤ), List.replicate 16 (i : ℤ))

/-- A scrambled state accepted by the validator: the solved state with
the sticker at position 12 exchanged between faces 0 and 1.  Every color
still occurs 16 times and the center positions 5, 6, 9, 10 stay uniform,
yet the state differs from the solved one. -/
def scrambledState : KState :=
  ((0 : ℤ), (List.replicate 16 (0 : ℤ)).set 12 1)
    :: ((1 : ℤ), (List.replicate 16 (1 : ℤ)).set 12 0)
    :: ((List.range 10).map fun i => ((i : ℤ) + 2, List.replicate 16 ((i : ℤ) + 2)))

/-! ## Validator (src/solver/state_validator.py) -/

/-- Message of the face-count rejection in validate_kilominx_state. -/
def invalidFacesMsg (n : ℕ) : String :=
  "Invalid number of faces: " ++ toString n ++ ". Expected 12 faces."

/-- Message of the per-face sticker-count rejection. -/
def wrongSlotMsg (f : ℤ) (n : ℕ) : String :=
  "Face " ++ toString f ++ " has " ++ toString n ++ " stickers. Expected 16 stickers."

/-- Message of the distinct-color-count rejection. -/
def foundColorsMsg (n : ℕ) : String :=
  "Found " ++ toString n ++ " colors. Expected 12 colors."

/-- Message of the per-color occurrence-count rejection. -/
def colorCountMsg (c : ℤ) (k : ℕ) : String :=
  "Color " ++ toString c ++ " appears " ++ toString k ++ " times. Expected 16 occurrences."

/-- Message of the center-piece consistency rejection. -/
def centerMsg (f : ℤ) : String :=
  "Center pieces on face " ++ toString f ++ " have inconsistent colors."

/-- Message of the accepting branch. -/
def validOkMsg : String := "The cube state is valid."

/-- All stickers of the state in face order, as the loop over
state.values() accumulates them. -/
def allStickers (s : KState) : List ℤ := (s.map Prod.snd).flatten

/-- The distinct colors in first-occurrence order: the key order of the
color_counter dict built by insertion. -/
def distinctColors (l : List ℤ) : List ℤ :=
  l.foldl (fun acc c => if c ∈ acc then acc else acc ++ [c]) []

/-- The four center stickers of a face, indices 5, 6, 9 and 10; none
models the IndexError Python would raise on a shorter list. -/
def centerColors (l : List ℤ) : Option (List ℤ) :=
  match l.get? 5, l.get? 6, l.get? 9, l.get? 10 with
  | some a, some b, some c, some d => some [a, b, c, d]
  | _, _, _, _ => none

/-- The final loop of validate_kilominx_state: the first face whose four
center stickers are not all equal is rejected; with no such face the
state is accepted.  A none propagates an IndexError of the sticker
indexing. -/
def checkCenters : KState → Option (Bool × String)
  | [] => some (true, validOkMsg)
  | (f, l) :: rest =>
    match centerColors l with
    | none => none
    | some cols =>
      if 1 < (distinctColors cols).length then some (false, centerMsg f)
      else checkCenters rest

/-- validate_kilominx_state: face count, per-face sticker count, distinct
color count, per-color occurrence count, then center-piece consistency,
short-circuiting at the first failure; some models normal return, none an
uncaught IndexError. -/
def validate (s : KState) : Option (Bool × String) :=
  if s.length ≠ 12 then some (false, invalidFacesMsg s.length)
  else
    match s.find? (fun p => p.2.length ≠ 16) with
    | some p => some (false, wrongSlotMsg p.1 p.2.length)
    | none =>
      if (distinctColors (allStickers s)).length ≠ 12 then
        some (false, foundColorsMsg (distinctColors (allStickers s)).length)
      else
        match (distinctColors (allStickers s)).find?
            (fun c => (allStickers s).count c ≠ 16) with
        | some c => some (false, colorCountMsg c ((allStickers s).count c))
        | none => checkCenters s

/-! ## Move notation utilities (src/solver/move_notation.py) -/

/-- FACE_NAMES lookup: the human-readable name of each of the 12 face
codes.  The key set coincides with the Face enum names, so membership in
FACE_NAMES is tested through faceOfName. -/
def humanFaceName (s : String) : Option String :=
  if s = "F" then some "Front"
  else if s = "U" then some "Up"
  else if s = "R" then some "Right"
  else if s = "D" then some "Down"
  else if s = "L" then some "Left"
  else if s = "BR" then some "Back-Right"
  else if s = "BL" then some "Back-Left"
  else if s = "BU" then some "Back-Up"
  else if s = "BD" then some "Back-Down"
  else if s = "B" then some "Back"
  else if s = "UL" then some "Up-Left"
  else if s = "UR" then some "Up-Right"
  else none

/-- MODIFIERS lookup: empty is clockwise, the apostrophe counter-clockwise
and 2 the half turn (the degree text reproduces the source bytes). -/
def modifierName (s : String) : Option String :=
  if s = "" then some "clockwise"
  else if s = apoStr then some "counter-clockwise"
  else if s = "2" then some ("half-turn (180Â°)")
  else none

/-- Face and modifier extraction of MoveNotation.to_human_readable: when
the first character is a face code and a second character exists, the
two-character prefix is tried against FACE_NAMES first (greedy longest
match), the remainder becoming the modifier. -/
def splitHuman (move : String) : String × String :=
  match move.data with
  | [] => ("", "")
  | c :: rest =>
    if rest.length > 0 ∧ (faceOfName (String.mk [c])).isSome then
      match rest with
      | c₂ :: rest₂ =>
        if (faceOfName (String.mk [c, c₂])).isSome then
          (String.mk [c, c₂], String.mk rest₂)
        else (String.mk [c], String.mk rest)
      | [] => (String.mk [c], String.mk rest)
    else (String.mk [c], "")

/-- MoveNotation.to_human_readable: empty tokens and comment tokens are
answered early; otherwise the face and modifier are extracted greedily
and rendered through the FACE_NAMES and MODIFIERS tables, with fallback
texts for unknown entries. -/
def toHumanReadable (move : String) : String :=
  if move = "" then "No move"
  else if move.data.head? = some '#' then (String.mk move.data.tail).trim
  else
    "Turn the "
      ++ ((humanFaceName (splitHuman move).1).getD
            ("Unknown face " ++ apoStr ++ (splitHuman move).1 ++ apoStr))
      ++ " face "
      ++ ((modifierName (splitHuman move).2).getD "unknown direction")

/-- Face and modifier extraction of MoveNotation._combine_moves: a second
character that is neither the apostrophe nor 2 extends the face name to
two characters, and the modifier is the remainder of the token.  The
empty token would raise IndexError in Python and is mapped to junk. -/
def faceModOf (move : String) : String × String :=
  match move.data with
  | [] => ("", "")
  | [c] => (String.mk [c], "")
  | c :: c₂ :: rest =>
    if c₂ ≠ apoChar ∧ c₂ ≠ '2' then (String.mk [c, c₂], String.mk rest)
    else (String.mk [c], String.mk (c₂ :: rest))

/-- Quarter-turn count of a modifier in MoveNotation._combine_moves: the
apostrophe counts 3, the half turn 2, anything else 1. -/
def rotOf (m : String) : ℕ :=
  if m = apoStr then 3 else if m = "2" then 2 else 1

/-- MoveNotation._combine_moves: adds the quarter-turn counts modulo 4
and renders the result, none meaning the moves cancel. -/
def combineMoves (m₁ m₂ : String) : Option String :=
  if (rotOf (faceModOf m₁).2 + rotOf (faceModOf m₂).2) % 4 = 0 then none
  else if (rotOf (faceModOf m₁).2 + rotOf (faceModOf m₂).2) % 4 = 1 then
    some (faceModOf m₁).1
  else if (rotOf (faceModOf m₁).2 + rotOf (faceModOf m₂).2) % 4 = 2 then
    some ((faceModOf m₁).1 ++ "2")
  else some ((faceModOf m₁).1 ++ apoStr)

/-! ## Heap model of apply_move (mutation discipline of claim C7)

Python lists are mutable objects; to state that apply_move leaves its
input untouched, states carry references into an explicit heap.  A Heap
holds the contents of every allocated list and the next fresh address; a
HState maps each face index to the address of its sticker list. -/

/-- The store of allocated sticker lists. -/
structure Heap where
  mem : ℕ → List ℤ
  next : ℕ

/-- A state as Python holds it: face indices bound to list addresses. -/
abbrev HState := List (ℤ × ℕ)

/-- Allocation of a fresh list object. -/
def halloc (h : Heap) (l : List ℤ) : Heap × ℕ :=
  (⟨Function.update h.mem h.next l, h.next + 1⟩, h.next)

/-- The dict comprehension of apply_move: every face list is copied into
a fresh object (v.copy()) and bound in a fresh dict. -/
def copyHState : Heap → HState → Heap × HState
  | h, [] => (h, [])
  | h, (f, r) :: rest =>
    ((copyHState (halloc h (h.mem r)).1 rest).1,
     (f, (halloc h (h.mem r)).2) :: (copyHState (halloc h (h.mem r)).1 rest).2)

/-- Dict rebinding state[face] = address on the heap-level state. -/
def setRef : HState → ℤ → ℕ → HState
  | [], f, r => [(f, r)]
  | (g, q) :: rest, f, r =>
    if g = f then (f, r) :: rest else (g, q) :: setRef rest f r

/-- MasterKilominx._rotate_face on the heap: the rotated sticker list is
a fresh Python list, so it is allocated and the dict entry rebound to
it; the list previously bound is never written. -/
def rotateFaceH (h : Heap) (s : HState) (f d : ℤ) : Heap × HState :=
  ((halloc h (rotGrid d (h.mem ((List.lookup f s).getD 0)))).1,
   setRef s f (halloc h (rotGrid d (h.mem ((List.lookup f s).getD 0)))).2)

/-- MasterKilominx.apply_move on the heap: parse, copy every face list,
then rotate the parsed face on the copy. -/
def applyMoveH (h : Heap) (s : HState) (move : String) : Heap × HState :=
  rotateFaceH (copyHState h s).1 (copyHState h s).2 (parseMove move).1 (parseMove move).2

/-- Reachability from the solved state through apply_move with nonempty
move tokens. -/
def ReachableFromSolved (t : KState) : Prop :=
  ∃ ms : List String, (∀ m ∈ ms, m.data ≠ []) ∧ applyMoves solvedState ms = t

/-- A one-face heap configuration for the C7 witness. -/
def heap0 : Heap := ⟨fun _ => [], 1⟩

/-- The state of the C7 witness: face 0 bound to address 0. -/
def hstate0 : HState := [((0 : ℤ), 0)]

/-! ## Helper lemmas -/

/-- Rotating a 16-element constant grid in any direction returns the same
constant grid. -/
lemma rotGrid_const (d c : ℤ) : rotGrid d (List.replicate 16 c) = List.replicate 16 c := by
  unfold rotGrid rotCW rotCCW rot180
  split_ifs <;> rfl

/-- The parsed face value is always one of the 12 enum values. -/
lemma faceOfName_getD_mem (s : String) :
    0 ≤ (faceOfName s).getD 0 ∧ (faceOfName s).getD 0 < 12 := by
  unfold faceOfName
  split <;> decide

/-- Each face of the solved state holds 16 stickers of its face value. -/
lemma stateGet_solved (f : ℤ) (h0 : 0 ≤ f) (h1 : f < 12) :
    stateGet solvedState f = List.replicate 16 f := by
  interval_cases f <;> rfl

/-- Rebinding a face of the solved state to its own sticker list is the
identity. -/
lemma stateSet_solved (f : ℤ) (h0 : 0 ≤ f) (h1 : f < 12) :
    stateSet solvedState f (List.replicate 16 f) = solvedState := by
  interval_cases f <;> rfl

/-- Rotating any face of the solved state in any direction leaves the
solved state unchanged: each face is constant and the move never touches
other faces. -/
lemma rotateFace_solved (f : ℤ) (h0 : 0 ≤ f) (h1 : f < 12) (d : ℤ) :
    rotateFace solvedState f d = solvedState := by
  unfold rotateFace
  rw [stateGet_solved f h0 h1, rotGrid_const, stateSet_solved f h0 h1]

/-- apply_move fixes the solved state for every token. -/
lemma applyMove_solved (mv : String) : applyMove solvedState mv = solvedState := by
  unfold applyMove
  exact rotateFace_solved _ (faceOfName_getD_mem _).1 (faceOfName_getD_mem _).2 _

/-- Every finite token sequence fixes the solved state. -/
lemma applyMoves_solved (ms : List String) : applyMoves solvedState ms = solvedState := by
  induction ms with
  | nil => rfl
  | cons m rest ih =>
    show applyMoves (applyMove solvedState m) rest = solvedState
    rw [applyMove_solved, ih]

/-- Allocation leaves every already-allocated address unchanged. -/
lemma halloc_mem_lt (h : Heap) (l : List ℤ) (r : ℕ) (hr : r < h.next) :
    (halloc h l).1.mem r = h.mem r :=
  Function.update_noteq (Nat.ne_of_lt hr) _ _

/-- Allocation never lowers the allocation frontier. -/
lemma halloc_next (h : Heap) (l : List ℤ) : h.next ≤ (halloc h l).1.next :=
  Nat.le_succ _

/-- Copying a state never lowers the allocation frontier. -/
lemma copyHState_next (s : HState) : ∀ h : Heap, h.next ≤ (copyHState h s).1.next := by
  induction s with
  | nil => intro h; exact le_rfl
  | cons p rest ih =>
    intro h
    obtain ⟨f, r⟩ := p
    calc h.next ≤ (halloc h (h.mem r)).1.next := halloc_next _ _
      _ ≤ (copyHState (halloc h (h.mem r)).1 rest).1.next := ih _

/-- Copying a state leaves every already-allocated address unchanged. -/
lemma copyHState_mem_lt (s : HState) :
    ∀ (h : Heap) (r : ℕ), r < h.next → (copyHState h s).1.mem r = h.mem r := by
  induction s with
  | nil => intro h r _; rfl
  | cons p rest ih =>
    intro h r hr
    obtain ⟨f, q⟩ := p
    show (copyHState (halloc h (h.mem q)).1 rest).1.mem r = h.mem r
    rw [ih _ r (lt_of_lt_of_le hr (halloc_next _ _)), halloc_mem_lt _ _ _ hr]


/-- With every face holding 16 stickers the center loop never indexes out
of range. -/
lemma checkCenters_isSome (s : KState) (h : ∀ p ∈ s, p.2.length = 16) :
    (checkCenters s).isSome := by
  induction s with
  | nil => rfl
  | cons p rest ih =>
    obtain ⟨f, l⟩ := p
    have hl : l.length = 16 := h (f, l) (by simp)
    have hget : ∀ k : ℕ, k < 16 → ∃ a, l.get? k = some a := by
      intro k hk
      cases hq : l.get? k with
      | none => exact absurd (List.get?_eq_none.mp hq) (by omega)
      | some a => exact ⟨a, rfl⟩
    obtain ⟨a5, h5⟩ := hget 5 (by omega)
    obtain ⟨a6, h6⟩ := hget 6 (by omega)
    obtain ⟨a9, h9⟩ := hget 9 (by omega)
    obtain ⟨a10, h10⟩ := hget 10 (by omega)
    unfold checkCenters centerColors
    rw [h5, h6, h9, h10]
    show (if 1 < (distinctColors [a5, a6, a9, a10]).length then some (false, centerMsg f)
        else checkCenters rest).isSome
    split_ifs with hc
    · rfl
    · exact ih fun q hq => h q (List.mem_cons_of_mem _ hq)

/-! ## Claim theorems -/

/-- C10: validate_kilominx_state is total on every input mapping of faces
to sticker-color lists: it always returns a (bool, message) pair and
never raises an out-of-range error, because the center-piece check that
indexes positions 5, 6, 9 and 10 is reached only after every face passed
the 16-sticker count check. -/
theorem validate_total (s : KState) : (validate s).isSome := by
  unfold validate
  split
  · rfl
  · split
    · rfl
    next hf =>
      split
      · rfl
      · split
        · rfl
        · apply checkCenters_isSome
          intro p hp
          have := List.find?_eq_none.mp hf p hp
          simpa using this

/-- C8: validating the state built by the no-argument constructor (every
slot of each of the 12 faces holding the face color) returns the valid
result. -/
theorem validate_solved_ok : validate solvedState = some (true, validOkMsg) := by decide

/-- C4: every state reachable from the solved state through apply_move
satisfies the sticker-count invariant (each of the 12 colors occurs
exactly 16 times) and still passes validation.  Empty tokens are excluded
because Python raises IndexError on them before any move is applied. -/
theorem reachable_states_pass_validation (ms : List String)
    (_hne : ∀ m ∈ ms, m.data ≠ []) :
    (∀ c : ℤ, 0 ≤ c → c < 12 → (allStickers (applyMoves solvedState ms)).count c = 16)
      ∧ validate (applyMoves solvedState ms) = some (true, validOkMsg) := by
  rw [applyMoves_solved]
  refine ⟨fun c h0 h1 => ?_, by decide⟩
  interval_cases c <;> decide

/-- Witness for C4 at the concrete sequence F, U. -/
theorem reachable_states_pass_validation_witness :
    (allStickers (applyMoves solvedState ["F", "U"])).count 3 = 16
      ∧ validate (applyMoves solvedState ["F", "U"]) = some (true, validOkMsg) :=
  ⟨(reachable_states_pass_validation ["F", "U"] (by decide)).1 3 (by decide) (by decide),
   (reachable_states_pass_validation ["F", "U"] (by decide)).2⟩

/-- C1: the order-5 law fails on the code.  Five clockwise quarter turns
of face F leave a valid scrambled state rotated by one quarter turn, not
restored: _rotate_grid turns the 4x4 grid by 90 degrees, which has order
4, never 5.  The second conjunct records that the five applications equal
a single application. -/
theorem apply_five_clockwise_not_identity :
    applyMoves scrambledState ["F", "F", "F", "F", "F"] ≠ scrambledState
      ∧ applyMoves scrambledState ["F", "F", "F", "F", "F"] = applyMove scrambledState "F" := by
  exact ⟨by decide, by decide⟩

/-- C3: the mod-5 round-trip law fails on the code for the half turn.
The inverse of turn amount 2 modulo 5 is amount 3, but _rotate_grid
treats any direction outside 1, -1, 2 as no rotation, so the half-turned
state is returned unchanged instead of being restored; the token-level
quarter-turn round trip F then F-apostrophe does restore the state. -/
theorem half_turn_mod5_inverse_fails :
    rotateFace (applyMove scrambledState "F2") 0 ((-2 : ℤ) % 5) ≠ scrambledState
      ∧ rotateFace (applyMove scrambledState "F2") 0 ((-2 : ℤ) % 5)
          = applyMove scrambledState "F2"
      ∧ applyMove (applyMove scrambledState "F") ("F" ++ apoStr) = scrambledState := by
  exact ⟨by decide, by decide, by decide⟩

/-- C2 counterexample: the token X names no face, yet apply_move reports
no error: _parse_move catches the KeyError and defaults to face F, so X
is applied exactly as the clockwise move F and produces a new state. -/
theorem unknown_face_token_applies_as_F :
    faceOfName "X" = none
      ∧ applyMove scrambledState "X" = applyMove scrambledState "F"
      ∧ applyMove scrambledState "X" ≠ scrambledState := by
  exact ⟨rfl, by decide, by decide⟩

/-- C2 amended: apply_move never fails; a nonempty token whose extracted
face name is unrecognized is applied as a rotation of the default face F
(value 0) with the parsed direction. -/
theorem parse_unknown_face_defaults_to_F (mv : String) (s : KState)
    (_hne : mv.data ≠ []) (hun : faceOfName (splitMove mv).1 = none) :
    applyMove s mv = rotateFace s 0 (splitMove mv).2 := by
  unfold applyMove parseMove
  rw [hun]
  rfl

/-- Witness for the amended C2 at the token X. -/
theorem parse_unknown_face_defaults_to_F_witness :
    applyMove solvedState "X" = rotateFace solvedState 0 (splitMove "X").2 :=
  parse_unknown_face_defaults_to_F "X" solvedState (by decide) (by decide)

/-- C5: greedy longest-match parsing of BR-apostrophe fails in the parser
that feeds the move engine.  MasterKilominx._parse_move reduces any token
longer than two characters to its first character, returning face B
(value 9) clockwise, while MoveNotation.to_human_readable does match the
two-character face BR greedily and reads the counter-clockwise
modifier. -/
theorem parse_BR_prime_mismatch :
    parseMove ("BR" ++ apoStr) = (9, 1)
      ∧ splitHuman ("BR" ++ apoStr) = ("BR", apoStr)
      ∧ toHumanReadable ("BR" ++ apoStr) = "Turn the Back-Right face counter-clockwise" := by
  exact ⟨by decide, by decide, by decide⟩

/-- C6: _combine_moves adds quarter-turn counts modulo 4, not modulo 5:
two half turns on the same face cancel to nothing, although on a
pentagonal face they make four quarter turns, a counter-clockwise
quarter turn; two counter-clockwise turns likewise combine to a half
turn by the mod-4 rule. -/
theorem combine_half_turns_cancels_mod4 :
    combineMoves "F2" "F2" = none
      ∧ combineMoves ("F" ++ apoStr) ("F" ++ apoStr) = some "F2" := by
  exact ⟨by decide, by decide⟩

/-- C7: apply_move never mutates its input state.  On the heap model,
whenever every face of the input is bound to an allocated address, the
sticker list of every face of the input reads the same after the call as
before: the move writes only to fresh copies. -/
theorem apply_move_preserves_input_heap (h : Heap) (s : HState) (mv : String)
    (hb : ∀ p ∈ s, p.2 < h.next) :
    ∀ f r, (f, r) ∈ s → ((applyMoveH h s mv).1).mem r = h.mem r := by
  intro f r hmem
  have hr : r < h.next := hb (f, r) hmem
  unfold applyMoveH rotateFaceH
  rw [halloc_mem_lt _ _ _ (lt_of_lt_of_le hr (copyHState_next s h)),
      copyHState_mem_lt s h r hr]

/-- Witness for C7 at a concrete heap, state and move. -/
theorem apply_move_preserves_input_heap_witness :
    ((applyMoveH heap0 hstate0 "F").1).mem 0 = heap0.mem 0 :=
  apply_move_preserves_input_heap heap0 hstate0 "F" (by decide) 0 0 (by decide)

/-- C9 counterexample: the validator performs no reachability check.  The
scrambled state is accepted as valid although no finite move sequence
reaches it from the solved state (apply_move fixes the solved state, so
the solved state is the only reachable one). -/
theorem unreachable_state_accepted :
    validate scrambledState = some (true, validOkMsg)
      ∧ ¬ ReachableFromSolved scrambledState := by
  refine ⟨by decide, ?_⟩
  rintro ⟨ms, hne, heq⟩
  rw [applyMoves_solved] at heq
  exact absurd heq (by decide)

/-- C9 amended: validate_kilominx_state short-circuits through its checks
in order, face count first, then per-face sticker count, then the two
color-count checks, each rejection carrying its message; once all of
them pass, the final check performed is the center-piece consistency
check, not a reachability check. -/
theorem validate_check_order (s : KState) :
    (s.length ≠ 12 → validate s = some (false, invalidFacesMsg s.length))
    ∧ (s.length = 12 → (∃ p ∈ s, p.2.length ≠ 16) →
        ∃ f n, n ≠ 16 ∧ validate s = some (false, wrongSlotMsg f n))
    ∧ (s.length = 12 → (∀ p ∈ s, p.2.length = 16) →
        (distinctColors (allStickers s)).length ≠ 12 →
        validate s = some (false, foundColorsMsg (distinctColors (allStickers s)).length))
    ∧ (s.length = 12 → (∀ p ∈ s, p.2.length = 16) →
        (distinctColors (allStickers s)).length = 12 →
        (∃ c ∈ distinctColors (allStickers s), (allStickers s).count c ≠ 16) →
        ∃ c k, k ≠ 16 ∧ validate s = some (false, colorCountMsg c k))
    ∧ (s.length = 12 → (∀ p ∈ s, p.2.length = 16) →
        (distinctColors (allStickers s)).length = 12 →
        (∀ c ∈ distinctColors (allStickers s), (allStickers s).count c = 16) →
        validate s = checkCenters s) := by
  refine ⟨?_, ?_, ?_, ?_, ?_⟩
  · intro h
    unfold validate
    rw [if_pos h]
  · rintro h12 ⟨p, hp, hbad⟩
    have hs : (s.find? (fun q => q.2.length ≠ 16)).isSome :=
      List.find?_isSome.mpr ⟨p, hp, by simpa using hbad⟩
    obtain ⟨q, hq⟩ := Option.isSome_iff_exists.mp hs
    refine ⟨q.1, q.2.length, by simpa using List.find?_some hq, ?_⟩
    unfold validate
    rw [if_neg (by omega), hq]
  · intro h12 hall hd
    unfold validate
    rw [if_neg (by omega),
      List.find?_eq_none.mpr (fun x hx => by simpa using hall x hx), if_pos hd]
  · rintro h12 hall h12c ⟨c, hc, hcnt⟩
    have hs : ((distinctColors (allStickers s)).find?
        (fun c => (allStickers s).count c ≠ 16)).isSome :=
      List.find?_isSome.mpr ⟨c, hc, by simpa using hcnt⟩
    obtain ⟨c₀, hc₀⟩ := Option.isSome_iff_exists.mp hs
    refine ⟨c₀, (allStickers s).count c₀, by simpa using List.find?_some hc₀, ?_⟩
    unfold validate
    rw [if_neg (by omega),
      List.find?_eq_none.mpr (fun x hx => by simpa using hall x hx),
      if_neg (by omega), hc₀]
  · intro h12 hall h12c hcnt
    unfold validate
    rw [if_neg (by omega),
      List.find?_eq_none.mpr (fun x hx => by simpa using hall x hx),
      if_neg (by omega),
      List.find?_eq_none.mpr (fun x hx => by simpa using hcnt x hx)]

/-- Witness for the amended C9: the empty state is rejected with the
face-count message, and a state reaching the final stage returns the
center-check verdict. -/
theorem validate_check_order_witness :
    validate ([] : KState) = some (false, invalidFacesMsg 0)
      ∧ validate scrambledState = checkCenters scrambledState :=
  ⟨(validate_check_order []).1 (by decide),
   (validate_check_order scrambledState).2.2.2.2 (by decide) (by decide) (by decide)
     (by decide)⟩
